/-
Verification development for the cloudinit-status-report repository.

The repository is a set of Python scripts that turn hardcoded work-item
records into formatted status reports (Word documents or Markdown text).
This file gives a shallow embedding of the record normalizer, the report
renderers and the Markdown-to-document converter, and proves or refutes
the specification claims about them.

Modelling conventions:
  * Python strings are modelled as `List Char` (Python indexes and slices
    strings by code point, exactly like `List Char`).
  * `str.strip()` is `pyStrip`, `str.lower()` is `pyLower` (the data in
    this repository is ASCII, where both agree with Python exactly),
    `sub in s` is `pyInStr`, `s.split(sep)` is `pySplit`.
  * Calendar timestamps are modelled as natural-number day/instant counts,
    and `strftime` as decimal rendering (injective); the calendar layout of
    a date string is irrelevant to every claim treated here.
  * `random.randint` draws are supplied by an explicit function
    `draw : Nat → Nat` giving the result of the i-th call.
  * Word-document cosmetics (fonts, colors, widths, cell shading) carry no
    textual content and are not modelled; every piece of text placed into a
    document is.
-/
import Mathlib

/-- Python truthiness-relevant whitespace set of `str.strip()`
(space, tab, newline, carriage return, vertical tab, form feed). -/
def pySpace (c : Char) : Bool :=
  c == ' ' || c == '\t' || c == '\n' || c == '\r' || c == Char.ofNat 11 || c == Char.ofNat 12

/-- Python `str.strip()`: remove leading and trailing whitespace. -/
def pyStrip (s : List Char) : List Char :=
  ((s.dropWhile pySpace).reverse.dropWhile pySpace).reverse

/-- Python `str.lower()` (ASCII data throughout this repository). -/
def pyLower (s : List Char) : List Char :=
  s.map Char.toLower

/-- The characters of a Python string before its first `<`
(that is, `s.split('<')[0]`). -/
def beforeLt (s : List Char) : List Char :=
  s.takeWhile (fun c => c != '<')

def unassignedStr : List Char := "Unassigned".data

/-- `clean_assignee` from `CloudInit_MCP_Report.py` lines 43-49 (the copy in
`final_live_mcp_report.py` lines 15-21 is identical):

    if not assignee_string: return "Unassigned"
    if '<' in assignee_string and '>' in assignee_string:
        return assignee_string.split('<')[0].strip()
    return assignee_string
-/
def clean_assignee (s : List Char) : List Char :=
  if s = [] then unassignedStr
  else if '<' ∈ s ∧ '>' ∈ s then pyStrip (beforeLt s)
  else s

/-- The literal reading of claim C2's transformation: truncate at the first
`<` and strip ONLY trailing whitespace.  (The code instead applies
`str.strip()`, which strips both ends.)  Used to refute C2 as stated. -/
def truncStripTrailing (s : List Char) : List Char :=
  ((beforeLt s).reverse.dropWhile pySpace).reverse

/-- Python `str.startswith`. -/
def pyStartsWith (p s : List Char) : Bool := p.isPrefixOf s

/-- Python `str.endswith`. -/
def pyEndsWith (p s : List Char) : Bool := p.isSuffixOf s

/-- Python substring test `sub in s`. -/
def pyInStr (sub : List Char) (s : List Char) : Bool :=
  sub.isPrefixOf s ||
  match s with
  | [] => false
  | _ :: rest => pyInStr sub rest

/-- Worker for `pySplit`: left-to-right, non-overlapping scan.  Each step
consumes at least one character, so `fuel = s.length + 1` never runs out;
the fuel argument only makes the recursion structural. -/
def pySplitF (sep : List Char) : Nat → List Char → List (List Char)
  | 0, s => [s]
  | _ + 1, [] => [[]]
  | f + 1, c :: rest =>
    if sep.isPrefixOf (c :: rest) then
      [] :: pySplitF sep f (rest.drop (sep.length - 1))
    else
      match pySplitF sep f rest with
      | [] => [[c]]
      | y :: ys => (c :: y) :: ys

/-- Python `str.split(sep)` for a non-empty separator (the scripts only
split on `'**'`, `'<'` and `'\n'`; Python rejects an empty separator). -/
def pySplit (sep : List Char) (s : List Char) : List (List Char) :=
  match sep with
  | [] => [s]
  | _ :: _ => pySplitF sep (s.length + 1) s

/-- Decimal rendering of a natural number (Python `str(n)` / f-string
interpolation of a count). -/
def natStr (n : Nat) : List Char := (toString n).data

/-- The timestamp/instant rendering used wherever the scripts call
`strftime`: instants are modelled as `Nat` and rendered in decimal
(injective, which is all any claim needs). -/
def tsStr (n : Nat) : List Char := natStr n

/-- One element of the Word document produced by `parse_markdown_to_word`
(`convert_to_word.py`).  Run lists pair each run's text with its bold
flag. -/
inductive MdElem where
  | heading (level : Nat) (text : List Char) (centered : Bool)
  | italicPara (text : List Char)
  | boldPara (runs : List (List Char × Bool))
  | bulletPara (text : List Char)
  | bulletRuns (runs : List (List Char × Bool))
  | hrule
  | plainPara (text : List Char)
  | docFooter (ts : List Char)
deriving DecidableEq

/-- `line.split('**')` turned into runs: even-indexed parts are regular
runs, odd-indexed parts are bold runs (`convert_to_word.py` lines
101-109). -/
def boldRuns (line : List Char) : List (List Char × Bool) :=
  (pySplit ("**".data) line).enum.map (fun p => (p.2, p.1 % 2 == 1))

/-- The per-line classifier of `parse_markdown_to_word`
(`convert_to_word.py` lines 69-148).  The input is the already-stripped
line (`line = lines[i].strip()`); `none` means the line contributes no
document element (the empty-line `continue` and the final fall-through). -/
def classify (line : List Char) : Option MdElem :=
  if line.isEmpty then none
  else if pyStartsWith ("# ".data) line then
    some (.heading 1 (pyStrip (line.drop 2)) true)
  else if pyStartsWith ("## ".data) line then
    some (.heading 2 (pyStrip (line.drop 3)) false)
  else if pyStartsWith ("### ".data) line then
    some (.heading 3 (pyStrip (line.drop 4)) false)
  else if pyStartsWith ("*".data) line && pyEndsWith ("*".data) line
          && decide (line.length > 2) then
    some (.italicPara (line.drop 1).dropLast)
  else if pyInStr ("**".data) line then
    some (.boldPara (boldRuns line))
  else if pyStartsWith ("- ".data) line then
    (if pyInStr ("**".data) (pyStrip (line.drop 2)) then
      some (.bulletRuns (boldRuns (pyStrip (line.drop 2))))
    else
      some (.bulletPara (pyStrip (line.drop 2))))
  else if pyStartsWith ("---".data) line then
    some .hrule
  else if !line.isEmpty && !pyStartsWith ("#".data) line then
    (if pyInStr ("**".data) line then some (.boldPara (boldRuns line))
     else some (.plainPara line))
  else none

/-- `parse_markdown_to_word` (`convert_to_word.py` lines 47-163): the file
system is `fs : Option content` for `cloudinit_status_report.md`.  The very
first statement opens that file, so a missing file raises
`FileNotFoundError` before any document exists; `__main__` (lines 165-174)
catches it and prints the error carried here — no document is saved.
Otherwise the content is split on newlines, each line stripped and
classified, and a timestamped footer plus a timestamped output filename are
produced. -/
def parse_markdown_to_word (fs : Option (List Char)) (now : Nat) :
    Except (List Char) (List MdElem × List Char) :=
  match fs with
  | none => .error ("cloudinit_status_report.md file not found".data)
  | some content =>
      .ok ((((pySplit ("\n".data) content).map pyStrip).filterMap classify)
             ++ [.docFooter (tsStr now)],
           ("CloudInit_Status_Report_".data) ++ tsStr now ++ (".docx".data))

/-- The `fields` dictionary of a raw MCP work item, restricted to the keys
the scripts read (`System.Id`, `System.Title`, `System.State`,
`System.AssignedTo`, `System.Tags`, `System.WorkItemType`); `none` models
an absent key, so `fields.get(key, default)` becomes `Option.getD`. -/
structure RawFields where
  id : Option Int := none
  title : Option (List Char) := none
  state : Option (List Char) := none
  assignedTo : Option (List Char) := none
  tags : Option (List Char) := none
  workItemType : Option (List Char) := none
deriving DecidableEq

/-- A raw MCP work item `{"id": ..., "fields": {...}}`.  The outer id is
used only as a child-id fallback by the comprehensive report generator. -/
structure RawItem where
  itemId : Option Int := none
  fields : RawFields := {}
deriving DecidableEq

/-- A sample child item as hardcoded in `SAMPLE_CHILD_ITEMS`
(field `type` is `ctype` here, `type` being reserved in Lean). -/
structure Child where
  id : Int
  title : List Char
  ctype : List Char
  state : List Char
  assigned_to : List Char
deriving DecidableEq

/-- The canonical epic record built by `process_mcp_epic_data`. -/
structure Epic where
  id : Option Int
  title : List Char
  state : List Char
  assigned_to : List Char
  tags : List Char
  children : List Child
  last_updated : Option (List Char)
  salient_points : List (List Char)
deriving DecidableEq

/-- Python membership `x in l` for a list of strings. -/
def pyInList (x : List Char) (l : List (List Char)) : Bool :=
  l.any (fun y => x == y)

/-- The state list `['active', 'committed']` used throughout. -/
def acStates : List (List Char) := [("active".data), ("committed".data)]

/-- The state list `['active', 'committed', 'new']` of the other-states
bucket. -/
def acnStates : List (List Char) :=
  [("active".data), ("committed".data), ("new".data)]

/-- The blocker keyword list of `has_blockers`
(`CloudInit_MCP_Report.py` lines 151-152). -/
def blockerKeywords : List (List Char) :=
  [("blocked".data), ("blocker".data), ("risk".data), ("issue".data),
   ("problem".data), ("urgent".data), ("critical".data),
   ("vulnerability".data), ("security".data)]

/-- `has_blockers` (`CloudInit_MCP_Report.py` lines 146-154): any blocker
keyword occurs in the lower-cased title or tags. -/
def has_blockers (e : Epic) : Bool :=
  blockerKeywords.any
    (fun k => pyInStr k (pyLower e.title) || pyInStr k (pyLower e.tags))

/-- `get_epic_last_updated` (`CloudInit_MCP_Report.py` lines 84-94): the
source draws `days_ago = random.randint(1, 30)` and formats
`datetime.now() - timedelta(days=days_ago)`.  Instants are day counts
here, and the random draw is the explicit `daysAgo` argument. -/
def get_epic_last_updated (now daysAgo : Nat) : List Char :=
  tsStr (now - daysAgo)

/-- `generate_salient_points` (`CloudInit_MCP_Report.py` lines 96-144):
fixed point lists chosen by keywords of the lower-cased title, falling back
on a blocker check; capped at three points (`points[:3]`).  The
`children` parameter mirrors the unused `child_items` parameter. -/
def generate_salient_points (e : Epic) (_children : List Child) :
    List (List Char) :=
  (if pyInStr ("security".data) (pyLower e.title)
      || pyInStr ("secrets".data) (pyLower e.title) then
    [("Security review completed, implementation in progress".data),
     ("Integration with Azure Key Vault proceeding as planned".data),
     ("Expected completion by end of current sprint".data)]
  else if pyInStr ("lpa".data) (pyLower e.title)
      || pyInStr ("analyzer".data) (pyLower e.title) then
    [("Performance improvements showing 25% efficiency gain".data),
     ("User feedback integration completed for new features".data),
     ("Testing phase initiated for quality improvements".data)]
  else if pyInStr ("provisioning".data) (pyLower e.title) then
    [("Observability metrics implementation 60% complete".data),
     ("New telemetry endpoints deployed to staging environment".data),
     ("Documentation updates in progress for API changes".data)]
  else if pyInStr ("aurora".data) (pyLower e.title)
      || pyInStr ("migrate".data) (pyLower e.title) then
    [("Migration testing completed successfully in dev environment".data),
     ("Performance benchmarks meet expected criteria".data),
     ("Production migration scheduled for next quarter".data)]
  else if has_blockers e then
    [("⚠️ Dependency issues identified requiring cross-team coordination".data),
     ("Technical design review scheduled to address blockers".data),
     ("Timeline may require adjustment pending resolution".data)]
  else
    [("Development progressing according to planned timeline".data),
     ("Regular stakeholder updates maintaining project visibility".data),
     ("No major blockers identified at this time".data)]).take 3

/-- Whether a record reaches the active/committed enrichment branch of
`process_mcp_epic_data` (line 186), which is also exactly when a random
draw is consumed. -/
def usesDraw (f : RawFields) (sample : List Child) : Bool :=
  pyInList (pyLower (f.state.getD ("Unknown".data))) acStates
    && !sample.isEmpty

/-- The epic built for one kept record by `process_mcp_epic_data`
(`CloudInit_MCP_Report.py` lines 176-191): defaulted fields, cleaned
assignee, and — only on the active/committed branch with a non-empty
sample — the first two sample children, a randomized last-updated date and
the salient points. -/
def mkEpic (f : RawFields) (sample : List Child) (now daysAgo : Nat) : Epic :=
  let base : Epic :=
    { id := f.id,
      title := f.title.getD ("Unknown Epic".data),
      state := f.state.getD ("Unknown".data),
      assigned_to := clean_assignee (f.assignedTo.getD unassignedStr),
      tags := f.tags.getD [],
      children := [],
      last_updated := none,
      salient_points := [] }
  if usesDraw f sample then
    let withKids := { base with children := sample.take 2 }
    { withKids with
      last_updated := some (get_epic_last_updated now daysAgo),
      salient_points := generate_salient_points withKids withKids.children }
  else base

/-- Loop body of `process_mcp_epic_data` (lines 169-192): records whose
state lower-cases to `"removed"` are skipped; `k` counts the random draws
consumed so far (`draw k` is the result of the k-th `random.randint`
call). -/
def processGo (sample : List Child) (now : Nat) (draw : Nat → Nat) :
    List RawItem → Nat → List Epic
  | [], _ => []
  | item :: rest, k =>
    if pyLower (item.fields.state.getD []) == ("removed".data) then
      processGo sample now draw rest k
    else
      mkEpic item.fields sample now (draw k) ::
        processGo sample now draw rest
          (if usesDraw item.fields sample then k + 1 else k)

/-- `process_mcp_epic_data` (`CloudInit_MCP_Report.py` lines 164-194):
concatenates the two batches and normalizes each record in order. -/
def process_mcp_epic_data (b1 b2 : List RawItem) (sample : List Child)
    (now : Nat) (draw : Nat → Nat) : List Epic :=
  processGo sample now draw (b1 ++ b2) 0

/-- One element of the Word document produced by
`generate_live_word_report` (`CloudInit_MCP_Report.py` lines 196-445).
Constructors carry exactly the data interpolated into the corresponding
paragraph, table or bullet; `childTable` additionally records the id and
state of the epic it is rendered under (provenance only — the table text
is its `rows`). -/
inductive DocElem where
  | heading (level : Nat) (text : List Char)
  | genInfoLine (ts : List Char)
  | summaryPara (total ac newCount : Nat)
  | epicHeader (idx : Nat) (title : List Char) (id : Option Int) (warn : Bool)
  | detailsLine (state assigned : List Char) (lastUpdated : Option (List Char))
  | keyUpdatesHeader
  | salientBullet (point : List Char)
  | childItemsHeader
  | childTable (parentId : Option Int) (parentState : List Char)
               (rows : List (List (List Char)))
  | tableSpacer
  | noChildrenPara
  | newEpicsTable (rows : List (List (List Char)))
  | otherBullet (title : List Char) (id : Option Int) (state assigned : List Char)
  | pageBreak
  | detailBullet (text : List Char)
  | genTimeBullet (ts : List Char)
deriving DecidableEq

/-- Python `str(x)` for the optional integer id (`str(None) = "None"`). -/
def optIntStr : Option Int → List Char
  | some n => (toString n).data
  | none => ("None".data)

/-- Python `str(n)` for a child id. -/
def intStr (n : Int) : List Char := (toString n).data

/-- The bucket condition `e['state'].lower() in ['active', 'committed']`. -/
def isAC (e : Epic) : Bool := pyInList (pyLower e.state) acStates

/-- The bucket condition `e['state'].lower() == 'new'`. -/
def isNewState (e : Epic) : Bool := pyLower e.state == ("new".data)

/-- The bucket condition
`e['state'].lower() not in ['active', 'committed', 'new']`. -/
def isOtherState (e : Epic) : Bool := !pyInList (pyLower e.state) acnStates

/-- Bucket `active_committed_epics` (`CloudInit_MCP_Report.py` line 222,
identical in `final_live_mcp_report.py` line 123). -/
def active_committed_epics (l : List Epic) : List Epic := l.filter isAC

/-- Bucket `new_epics` (line 223 / 124). -/
def new_epics_of (l : List Epic) : List Epic := l.filter isNewState

/-- Bucket `other_epics` (line 224 / 125). -/
def other_epics_of (l : List Epic) : List Epic := l.filter isOtherState

/-- How many of the three renderer buckets an epic satisfies. -/
def bucketCount (e : Epic) : Nat :=
  (if isAC e then 1 else 0) + (if isNewState e then 1 else 0)
    + (if isOtherState e then 1 else 0)

/-- One data row of a child-items table (lines 320-327). -/
def childRow (c : Child) : List (List Char) :=
  [intStr c.id, c.title, c.ctype ++ (" - ".data) ++ c.state, c.assigned_to]

/-- One data row of the New-epics table (lines 392-398). -/
def newRow (e : Epic) : List (List Char) :=
  [optIntStr e.id, e.title, e.assigned_to]

/-- The document block rendered for one active/committed epic
(lines 239-355); the pair index comes from `enumerate(..., 1)`. -/
def acBlock (p : Nat × Epic) : List DocElem :=
  [.epicHeader (p.1 + 1) p.2.title p.2.id (has_blockers p.2),
   .detailsLine p.2.state p.2.assigned_to p.2.last_updated]
  ++ (if p.2.salient_points.isEmpty then []
      else .keyUpdatesHeader :: p.2.salient_points.map .salientBullet)
  ++ (if p.2.children.isEmpty then [.noChildrenPara]
      else [.childItemsHeader,
            .childTable p.2.id p.2.state (p.2.children.map childRow),
            .tableSpacer])

/-- Total child count over all epics (line 428). -/
def totalChildren (epics : List Epic) : Nat :=
  (epics.map (fun e => e.children.length)).sum

/-- The Report Details bullet list (lines 423-439). -/
def reportDetails (epics : List Epic) (now : Nat) : List DocElem :=
  [.detailBullet (("Total Epics Analyzed: ".data) ++ natStr epics.length),
   .detailBullet (("Active/Committed Epics: ".data)
     ++ natStr (active_committed_epics epics).length),
   .detailBullet (("New Epics: ".data) ++ natStr (new_epics_of epics).length),
   .detailBullet (("Other States: ".data) ++ natStr (other_epics_of epics).length),
   .detailBullet (("Total Child Items: ".data) ++ natStr (totalChildren epics)),
   .genTimeBullet (tsStr now),
   .detailBullet ("Data Source: Live Azure DevOps via MCP".data),
   .detailBullet ("Filtering: Child items only shown for Active/Committed epics".data),
   .detailBullet ("Enhanced Features: Last updated dates and salient points for active epics".data),
   .detailBullet ("Row Protection: Child items table rows cannot break across pages".data),
   .detailBullet ("Font: Aptos throughout document".data),
   .detailBullet ("Icons: Only used for blockers/attention items (⚠️)".data)]

/-- Title, timestamp line and executive summary
(`CloudInit_MCP_Report.py` lines 207-233). -/
def headerElems (epics : List Epic) (now : Nat) : List DocElem :=
  [.heading 0 ("CloudInit Epic Status Report".data),
   .genInfoLine (tsStr now),
   .heading 1 ("Executive Summary".data),
   .summaryPara epics.length (active_committed_epics epics).length
     (new_epics_of epics).length]

/-- The detailed active/committed section (lines 236-355). -/
def acSection (epics : List Epic) : List DocElem :=
  if (active_committed_epics epics).isEmpty then []
  else .heading 1 ("Active & Committed Epics (Detailed View)".data) ::
    (active_committed_epics epics).enum.flatMap acBlock

/-- The New-epics table section (lines 357-408). -/
def newSection (epics : List Epic) : List DocElem :=
  if (new_epics_of epics).isEmpty then []
  else [.heading 1 ("New Epics (Awaiting Prioritization)".data),
        .newEpicsTable ((new_epics_of epics).map newRow)]

/-- The other-states bullet section (lines 410-417). -/
def otherSection (epics : List Epic) : List DocElem :=
  if (other_epics_of epics).isEmpty then []
  else .heading 1 ("Other Epic States".data) ::
    (other_epics_of epics).map
      (fun e => .otherBullet e.title e.id e.state e.assigned_to)

/-- The Report Details footer (lines 419-439). -/
def footerElems (epics : List Epic) (now : Nat) : List DocElem :=
  .pageBreak :: .heading 1 ("Report Details".data) :: reportDetails epics now

/-- `generate_live_word_report` (`CloudInit_MCP_Report.py` lines 196-445)
as the ordered list of textual document elements it emits: title and
timestamp line, executive summary, the detailed active/committed section,
the New-epics table, the other-states bullet list, and the Report Details
footer.  (The timestamped output filename of `doc.save` is not document
text and is not modelled.) -/
def generate_live_word_report (epics : List Epic) (now : Nat) : List DocElem :=
  headerElems epics now ++ acSection epics ++ newSection epics
    ++ otherSection epics ++ footerElems epics now

/-- The epic-state string carried by a document element, if any: the
details line, the child table (its parent's state) and the other-states
bullet are the elements that carry a state. -/
def stateOf : DocElem → Option (List Char)
  | .detailsLine s _ _ => some s
  | .childTable _ s _ => some s
  | .otherBullet _ _ s _ => some s
  | _ => none

/-- An epic dictionary of `fetch_live_cloudinit_data`
(`comprehensive_report_generator.py` lines 168-242); `children` is filled
in by the attachment loop (lines 288-296). -/
structure CEpic where
  id : Int
  title : List Char
  state : List Char
  assignedTo : List Char
  description : List Char
  url : List Char
  lastChanged : List Char
  children : List RawItem := []
deriving DecidableEq

/-- A high-priority task record (lines 243-265). -/
structure CTask where
  id : Int
  title : List Char
  state : List Char
  assignedTo : List Char
  ttype : List Char
deriving DecidableEq

/-- A recent-bug record (lines 266-285). -/
structure CBug where
  id : Int
  title : List Char
  state : List Char
  assignedTo : List Char
deriving DecidableEq

/-- The `live_data` dictionary shape consumed by
`generate_comprehensive_report`. -/
structure CData where
  epics : List CEpic
  high_priority_tasks : List CTask
  recent_bugs : List CBug
deriving DecidableEq

/-- `fetch_child_items_for_epic` (`comprehensive_report_generator.py`
lines 17-153): a hardcoded id-keyed table of child work items; every other
id gets an empty list. -/
def fetch_child_items_for_epic (epicId : Int) : List RawItem :=
  if epicId = 28621005 then
    [{ itemId := some 25391203,
       fields :=
       { id := some 25391203, workItemType := some ("Feature".data),
         state := some ("Active".data),
         assignedTo := some ("Shilpi Agarwal <shiagarwal@microsoft.com>".data),
         title := some ("[Se][Spillover] NS & RdAgent Data Validation in Canary".data) } },
     { itemId := some 30248770,
       fields :=
       { id := some 30248770, workItemType := some ("Feature".data),
         state := some ("Committed".data),
         assignedTo := some ("Dung Hoang <duhoang@microsoft.com>".data),
         title := some ("[Br] Ingest and export data from ADX to Storage for \x27Fa\x27".data) } },
     { itemId := some 32885343,
       fields :=
       { id := some 32885343, workItemType := some ("Feature".data),
         state := some ("New".data),
         assignedTo := some ("Shilpi Agarwal <shiagarwal@microsoft.com>".data),
         title := some ("[Br] E2E Prod Migration (all regions) NodeService\\RdAgent\\CloudInit\\WinPA\\GuestOS\\HostOS\\HyperV".data) } },
     { itemId := some 30248773,
       fields :=
       { id := some 30248773, workItemType := some ("Feature".data),
         state := some ("Active".data),
         assignedTo := some ("Jane Smith <jsmith@microsoft.com>".data),
         title := some ("[Dt] CloudInit Core Platform Features".data) } },
     { itemId := some 34005323,
       fields :=
       { id := some 34005323, workItemType := some ("Feature".data),
         state := some ("New".data),
         assignedTo := some ("Bob Johnson <bjohnson@microsoft.com>".data),
         title := some ("[Se] Security Enhancements for CloudInit".data) } }]
  else if epicId = 24900549 then
    [{ itemId := some 24900551,
       fields :=
       { id := some 24900551, workItemType := some ("Feature".data),
         state := some ("Active".data),
         assignedTo := some ("Security Team <security@microsoft.com>".data),
         title := some ("CVM Secret Management Implementation".data) } },
     { itemId := some 24900552,
       fields :=
       { id := some 24900552, workItemType := some ("User Story".data),
         state := some ("Active".data),
         assignedTo := some ("Christopher Patterson <cpatterson@microsoft.com>".data),
         title := some ("CloudInit Integration with CVM Secrets API".data) } }]
  else if epicId = 25030289 then
    [{ itemId := some 25030291,
       fields :=
       { id := some 25030291, workItemType := some ("Bug".data),
         state := some ("Active".data),
         assignedTo := some ("Swamy Shivaganga Nagaraju <gaswamy@microsoft.com>".data),
         title := some ("Fix: Secrets exposure in CVM provisioning".data) } },
     { itemId := some 25030292,
       fields :=
       { id := some 25030292, workItemType := some ("Feature".data),
         state := some ("New".data),
         assignedTo := some ("Security Team <security@microsoft.com>".data),
         title := some ("Enhanced Secret Isolation for CVMs".data) } }]
  else if epicId = 33047787 then
    [{ itemId := some 33047789,
       fields :=
       { id := some 33047789, workItemType := some ("User Story".data),
         state := some ("Active".data),
         assignedTo := some ("Ben Ryan <benjaminryan@microsoft.com>".data),
         title := some ("Aurora Platform Testing Framework".data) } },
     { itemId := some 33047790,
       fields :=
       { id := some 33047790, workItemType := some ("Task".data),
         state := some ("To Do".data),
         assignedTo := some ("Migration Team <migration@microsoft.com>".data),
         title := some ("CloudInit Aurora Migration Strategy".data) } }]
  else []

/-- The `"epics"` list literal of `fetch_live_cloudinit_data`
(lines 168-242), before child attachment. -/
def liveEpicsRaw : List CEpic :=
  [{ id := 4976352,
     title := ("Port walinuxagent capability to cloud-init".data),
     state := ("Removed".data), assignedTo := [],
     description := ("Migrate core provisioning and management capabilities from walinuxagent (WALA) to cloud-init for improved cross-distro support and maintainability.".data),
     url := ("https://dev.azure.com/msazure/_apis/wit/workItems/4976352".data),
     lastChanged := ("2025-08-11T18:31:31.043Z".data) },
   { id := 28621005,
     title := ("2 NodeService\\RdAgent\\CloudInit\\WinPA\\GuestOS\\HostOS\\HyperV".data),
     state := ("Active".data),
     assignedTo := ("Ayelet Bar Am <aybaram@microsoft.com>".data),
     description := ("Epic for NodeService components including CloudInit integration".data),
     url := ("https://dev.azure.com/msazure/_apis/wit/workItems/28621005".data),
     lastChanged := ("2025-08-19T17:02:50.537Z".data) },
   { id := 33047744,
     title := ("Cloud-init Quality Improvements (bucket)".data),
     state := ("New".data),
     assignedTo := ("Christopher Patterson <cpatterson@microsoft.com>".data),
     description := ("Drive quality and reliability improvements for cloud-init through targeted bug fixes, test coverage, and CI/CD integration.".data),
     url := ("https://dev.azure.com/msazure/_apis/wit/workItems/33047744".data),
     lastChanged := ("2025-07-07T19:53:38.777Z".data) },
   { id := 32020513,
     title := ("Security review for cloudinit".data),
     state := ("Done".data),
     assignedTo := ("Qi Liang <qliang@microsoft.com>".data),
     description := ("Security review for cloudinit implementation - completed successfully".data),
     url := ("https://dev.azure.com/msazure/_apis/wit/workItems/32020513".data),
     lastChanged := ("2025-06-25T23:52:37.570Z".data) },
   { id := 24900549,
     title := ("Secrets Provisioning for CVM".data),
     state := ("Active".data),
     assignedTo := ("Christopher Patterson <cpatterson@microsoft.com>".data),
     description := ("CloudInit integration for CVM secrets provisioning - high priority security work".data),
     url := ("https://dev.azure.com/msazure/_apis/wit/workItems/24900549".data),
     lastChanged := ("2025-06-24T19:05:18.823Z".data) },
   { id := 25030289,
     title := ("[Provisioning] Secrets flowing into CVMs are accessible by Azure Host".data),
     state := ("Active".data),
     assignedTo := ("Swamy Shivaganga Nagaraju <gaswamy@microsoft.com>".data),
     description := ("Critical security vulnerability - secrets provisioning in CVMs with CloudInit involvement".data),
     url := ("https://dev.azure.com/msazure/_apis/wit/workItems/25030289".data),
     lastChanged := ("2025-08-25T21:13:47.657Z".data) },
   { id := 4780909,
     title := ("Supportability".data),
     state := ("Done".data), assignedTo := [],
     description := ("Completed supportability improvements for cloud-init as default provisioning agent".data),
     url := ("https://dev.azure.com/msazure/_apis/wit/workItems/4780909".data),
     lastChanged := ("2025-05-30T21:40:55.407Z".data) },
   { id := 33047787,
     title := ("Test and Migrate to Aurora".data),
     state := ("Active".data),
     assignedTo := ("Ben Ryan <benjaminryan@microsoft.com>".data),
     description := ("Testing and migration work for Aurora platform integration".data),
     url := ("https://dev.azure.com/msazure/_apis/wit/workItems/33047787".data),
     lastChanged := ("2025-08-19T20:41:54.940Z".data) }]

/-- The `"high_priority_tasks"` list literal (lines 243-265). -/
def liveTasks : List CTask :=
  [{ id := 33472219, title := ("[WorkloadPPS] Cloud-Init Changes".data),
     state := ("To Do".data),
     assignedTo := ("Chuanbo Pan <chupan@microsoft.com>".data),
     ttype := ("Task".data) },
   { id := 34017742, title := ("Cloud-init Support".data),
     state := ("To Do".data),
     assignedTo := ("Christopher Patterson <cpatterson@microsoft.com>".data),
     ttype := ("Task".data) },
   { id := 29631548,
     title := ("Save cloud-init log should save the long on cloud-init timeout also".data),
     state := ("Approved".data), assignedTo := [], ttype := ("Bug".data) }]

/-- The `"recent_bugs"` list literal (lines 266-285). -/
def liveBugs : List CBug :=
  [{ id := 33360979,
     title := ("[CloudInit] NodeInit failed with `No output json file generated by cloud-init`".data),
     state := ("Done".data),
     assignedTo := ("Qi Liang <qliang@microsoft.com>".data) },
   { id := 32804907, title := ("Disable cloudinit in target OS".data),
     state := ("Done".data),
     assignedTo := ("Yuan Yi <yuanyi@microsoft.com>".data) },
   { id := 34508823,
     title := ("Az login throttling during cloud init if multiple runs queued in parallel".data),
     state := ("Approved".data), assignedTo := [] }]

/-- The child attachment loop of `fetch_live_cloudinit_data`
(lines 288-296): every epic, regardless of state, gets
`fetch_child_items_for_epic(epic['id'])` as its children. -/
def attachChildren (epics : List CEpic) : List CEpic :=
  epics.map (fun e => { e with children := fetch_child_items_for_epic e.id })

/-- `fetch_live_cloudinit_data` (lines 155-302): the hardcoded dataset
with children attached. -/
def fetch_live_cloudinit_data : CData :=
  { epics := attachChildren liveEpicsRaw,
    high_priority_tasks := liveTasks,
    recent_bugs := liveBugs }

/-- The inline assignee cleanup used by the comprehensive report
(`comprehensive_report_generator.py` lines 396, 409, 422):
`a.split('<')[0].strip() if a and '<' in a else a`. -/
def inlineAssignee (a : List Char) : List Char :=
  if a ≠ [] ∧ '<' ∈ a then pyStrip (beforeLt a) else a

/-- The display form `assignee if assignee else 'Unassigned'`. -/
def dispAssignee (a : List Char) : List Char :=
  if inlineAssignee a = [] then unassignedStr else inlineAssignee a

/-- The child-count cell `f"{n} items"` / `"None"` (lines 423-424). -/
def childDisplay (e : CEpic) : List Char :=
  if e.children.length > 0 then natStr e.children.length ++ (" items".data)
  else ("None".data)

/-- The Complete-Epics-Overview table row (line 425):
`| [{id}]({url}) | {title} | {state} | {assignee} | {children} | {date} |`. -/
def overviewRowText (e : CEpic) : List Char :=
  ("| [".data) ++ intStr e.id ++ ("](".data) ++ e.url ++ (") | ".data)
    ++ e.title ++ (" | ".data) ++ e.state ++ (" | ".data)
    ++ dispAssignee e.assignedTo ++ (" | ".data) ++ childDisplay e
    ++ (" | ".data) ++ e.lastChanged.take 10 ++ (" |".data)

/-- Lexicographic (code-point) strict order on Python strings. -/
def pyStrLt : List Char → List Char → Bool
  | [], [] => false
  | [], _ :: _ => true
  | _ :: _, [] => false
  | a :: as, b :: bs =>
      if a.toNat < b.toNat then true
      else if b.toNat < a.toNat then false
      else pyStrLt as bs

/-- Python `max` over a list of strings (first maximum wins; the source
applies it to the non-empty epic list). -/
def pyMax (l : List (List Char)) : List Char :=
  match l with
  | [] => []
  | x :: xs => xs.foldl (fun acc y => if pyStrLt acc y then y else acc) x

/-- Count of epics whose lower-cased title contains one of the keywords
(the trend-analysis comprehensions, lines 481-483). -/
def kwCount (l : List CEpic) (kws : List (List Char)) : Nat :=
  (l.filter (fun e => kws.any (fun k => pyInStr k (pyLower e.title)))).length

/-- One fragment of the Markdown report assembled by
`generate_comprehensive_report` (`comprehensive_report_generator.py`
lines 304-503).  Each constructor stands for one f-string block of the
concatenated `markdown_content` and carries exactly the record data
interpolated into it; fixed surrounding prose is determined by the
constructor.  Table-row fragments note the record (and, for child rows,
the parent epic) they render; `overviewRowText` spells out the full text
of an overview row. -/
inductive MdFrag where
  | reportHeader (reportDate : List Char)
  | keyMetrics (total active done newCount security tasks bugs : Nat)
  | criticalHeader
  | activeEpicHeader (e : CEpic)
  | childTableHeader (parent : CEpic) (count : Nat)
  | childRowMd (parent : CEpic) (c : RawItem)
  | noChildMd
  | sectionRule
  | tasksHeader
  | taskRowMd (t : CTask)
  | bugsHeader
  | bugRowMd (b : CBug)
  | overviewHeader
  | overviewRowMd (e : CEpic)
  | strategicAnalysis (security : Nat)
  | trendAnalysis (sec plat qual activeTotal : Nat)
  | dataValidation (reportDate lastUpdate : List Char) (totalItems : Nat)
deriving DecidableEq

/-- The detail block of one critical active epic (lines 348-386): header
with url, state, assignee, date and description, then either a child
table (header plus one row per child) or the no-children note, then a
horizontal rule. -/
def activeEpicBlockMd (e : CEpic) : List MdFrag :=
  MdFrag.activeEpicHeader e ::
    ((if e.children.isEmpty then [MdFrag.noChildMd]
      else MdFrag.childTableHeader e e.children.length ::
        e.children.map (fun c => MdFrag.childRowMd e c))
     ++ [MdFrag.sectionRule])

/-- The epic list filtered to state exactly `'Active'`
(`active_epic_list`, line 346; note the comparison is case-sensitive
here, unlike the Word renderer's buckets). -/
def activeEpicListMd (epics : List CEpic) : List CEpic :=
  epics.filter (fun e => e.state == ("Active".data))

/-- Everything `generate_comprehensive_report` emits before the
Complete-Epics-Overview rows: header and metrics (lines 321-343), the
critical active epic blocks (lines 345-386), the task table
(lines 388-397), the bug table (lines 399-410) and the overview table
header (lines 412-419). -/
def comprehensivePre (data : CData) (reportDate : List Char) : List MdFrag :=
  [MdFrag.reportHeader reportDate,
   MdFrag.keyMetrics data.epics.length
     (activeEpicListMd data.epics).length
     (data.epics.filter (fun e => e.state == ("Done".data))).length
     (data.epics.filter (fun e => e.state == ("New".data))).length
     (data.epics.filter (fun e => pyInStr ("Secret".data) e.title
        || pyInStr ("CVM".data) e.title
        || pyInStr ("Security".data) e.title)).length
     data.high_priority_tasks.length data.recent_bugs.length,
   MdFrag.criticalHeader]
  ++ (activeEpicListMd data.epics).flatMap activeEpicBlockMd
  ++ (MdFrag.tasksHeader :: data.high_priority_tasks.map MdFrag.taskRowMd)
  ++ (MdFrag.bugsHeader :: data.recent_bugs.map MdFrag.bugRowMd)
  ++ [MdFrag.overviewHeader]

/-- Everything after the overview rows: the strategic analysis with the
security count (lines 428-477), the trend analysis with its three
keyword counts over the active list (lines 478-483), and the data
validation block with the report date, the latest `lastChanged` (first
ten characters) and the total item count (lines 485-501). -/
def comprehensivePost (data : CData) (reportDate : List Char) : List MdFrag :=
  [MdFrag.strategicAnalysis
     (data.epics.filter (fun e => pyInStr ("Secret".data) e.title
        || pyInStr ("CVM".data) e.title
        || pyInStr ("Security".data) e.title)).length,
   MdFrag.trendAnalysis
     (kwCount (activeEpicListMd data.epics)
       [("secret".data), ("security".data), ("cvm".data)])
     (kwCount (activeEpicListMd data.epics)
       [("aurora".data), ("migration".data), ("platform".data)])
     (kwCount (activeEpicListMd data.epics)
       [("quality".data), ("support".data), ("improvement".data)])
     (activeEpicListMd data.epics).length,
   MdFrag.dataValidation reportDate
     ((pyMax (data.epics.map (fun e => e.lastChanged))).take 10)
     (data.epics.length + data.high_priority_tasks.length
       + data.recent_bugs.length)]

/-- `generate_comprehensive_report` (lines 304-503): the Markdown report
as its ordered fragment list.  The Complete-Epics-Overview table emits one
row for EVERY epic of the input — there is no state filter on that loop
(lines 421-425). -/
def generate_comprehensive_report (data : CData) (reportDate : List Char) :
    List MdFrag :=
  comprehensivePre data reportDate
    ++ data.epics.map MdFrag.overviewRowMd
    ++ comprehensivePost data reportDate

/-- The `"Removed"`-state epic 4976352 as it sits in
`fetch_live_cloudinit_data()["epics"]` (it gets no children from
`fetch_child_items_for_epic`). -/
def cEpic4976352 : CEpic :=
  { id := 4976352,
    title := ("Port walinuxagent capability to cloud-init".data),
    state := ("Removed".data), assignedTo := [],
    description := ("Migrate core provisioning and management capabilities from walinuxagent (WALA) to cloud-init for improved cross-distro support and maintainability.".data),
    url := ("https://dev.azure.com/msazure/_apis/wit/workItems/4976352".data),
    lastChanged := ("2025-08-11T18:31:31.043Z".data) }

/-- A small concrete active epic used by witnesses. -/
def sampleActiveEpic : Epic :=
  { id := some 1, title := ("T".data), state := ("Active".data),
    assigned_to := ("A".data), tags := [], children := [],
    last_updated := none, salient_points := [] }

/-- A small concrete child item used by witnesses. -/
def sampleChild : Child :=
  ⟨2, ("C".data), ("Task".data), ("To Do".data), ("B".data)⟩

/-- `sampleActiveEpic` with one child attached, used by witnesses. -/
def sampleActiveEpicC : Epic :=
  { id := some 1, title := ("T".data), state := ("Active".data),
    assigned_to := ("A".data), tags := [], children := [sampleChild],
    last_updated := none, salient_points := [] }

/-- One epic record of `epic_data_validated.json` (the shape written by
`validate_epics.py` and read by `create_focused_report.py`). -/
structure VEpic where
  id : Int
  title : List Char
  state : List Char
  assignee : List Char
  tags : List Char
deriving DecidableEq

/-- The `summary` block of `epic_data_validated.json`. -/
structure VSummary where
  total_epics : Nat
  active_epics : Nat
  new_epics : Nat
  removed_epics : Nat
deriving DecidableEq

/-- The parts of `epic_data_validated.json` that
`create_focused_word_report` reads. -/
structure VData where
  summary : VSummary
  active_epics : List VEpic
  new_epics : List VEpic
deriving DecidableEq

/-- One element of the focused Word document
(`create_focused_report.py`).  Constructors carry the record data placed
into the corresponding heading, paragraph, table row or bullet; fixed
prose is determined by the constructor.  In `fEpicDetails`, an empty
`tags` string means the Tags runs are omitted (line 291). -/
inductive FocusedElem where
  | fHeading (level : Nat) (text : List Char)
  | fGenPara (date : List Char)
  | fProjectInfo
  | fSummaryRow (label : List Char) (value : Nat)
  | fActiveNote
  | fNewNote
  | fEpicHeading (n : Nat) (title : List Char)
  | fEpicDetails (id : Int) (state assignee tags : List Char)
  | fUpdatesHeader
  | fUpdateLine (text : List Char)
  | fChildHeader
  | fChildBullet (text : List Char)
  | fNoChildItems
  | fNewStatusNote
  | fNewTableRow (id : Int) (title assignee tags : List Char)
  | fAssignHeading (text : List Char)
  | fAssignLine (assignee : List Char) (count : Nat)
  | fBlank
  | fPageBreak
  | fFooter (date : List Char)
deriving DecidableEq

/-- The assignee cleanup of `create_focused_report.py` (lines 172, 191,
195, 285): `a.split('<')[0].strip() if a else 'Unassigned'`. -/
def fAssignee (a : List Char) : List Char :=
  if a ≠ [] then pyStrip (beforeLt a) else unassignedStr

/-- `get_latest_updates_for_epic` (`create_focused_report.py` lines
371-385): an id-keyed table of update texts with a generic default. -/
def get_latest_updates_for_epic (epicId : Int) : List Char :=
  if epicId = 24900549 then
    ("Active development for CVM secrets provisioning with protected secrets handling".data)
  else if epicId = 33047344 then
    ("Working on NVMe naming utilities for Azure VMs with Azure-Init support integration".data)
  else if epicId = 33047787 then
    ("Testing and migration work in progress for Aurora platform with CloudInit scenario improvements".data)
  else if epicId = 33047805 then
    ("Development of third version of LPA chatbot with security improvements and code quality enhancements".data)
  else if epicId = 33047822 then
    ("Quality improvements and analysis enhancements for LPA bucket initiatives".data)
  else if epicId = 33151651 then
    ("Continuous quality improvements for Tuxops with ongoing infrastructure enhancements".data)
  else if epicId = 33583359 then
    ("Active work on quality improvements and new features for LPA during Bromine iteration".data)
  else if epicId = 33587364 then
    ("Security enhancements for Linux Provisioning Analyzer with focus on vulnerability management".data)
  else ("Active development in progress".data)

/-- `get_child_items_for_epic` (`create_focused_report.py` lines
387-432): an id-keyed table of child bullet texts; every other id gets an
empty list. -/
def get_child_items_for_epic (epicId : Int) : List (List Char) :=
  if epicId = 24900549 then
    [("Active development for protected secrets handling in CloudInit".data)]
  else if epicId = 33047344 then
    [("34017753 - Azure-Init Support - To Do (Christopher Patterson)".data)]
  else if epicId = 33047787 then
    [("34001442 - Aurora Workloads Quality Improvement (bucket) - Active (Ben Ryan)".data),
     ("34000945 - Create custom C# scenario for SSH keygen and secure key storage - In Review (Ben Ryan)".data),
     ("34001332 - Create custom CloudInit scenario infra for Aurora workloads - Done (Ben Ryan)".data),
     ("34002007 - Migrate Keyvault upload logic from SSH keygen C# scenario to shared CloudInit scenario - To Do (Ben Ryan)".data),
     ("34000760 - Determine Aurora workload code triggering Cloudinit bug - Active (Ben Ryan)".data)]
  else if epicId = 33047805 then
    [("33587414 - Address CodeQL warning for unchecked config path - To Do (Vincenzo Marcella)".data),
     ("33229887 - [S360] Address CodeQL finding: \x27Uncontrolled data used in path expression\x27 - Resolved (Vincenzo Marcella)".data)]
  else if epicId = 33047822 then
    [("Quality analysis improvements and code enhancements in progress".data)]
  else if epicId = 33151651 then
    [("Ongoing infrastructure and quality improvements for Tuxops platform".data)]
  else if epicId = 33583359 then
    [("33583414 - Support dev containers to easily onboard new developers - Done".data),
     ("32307880 - LPA Formatting - Clean Up Style/Syntax Debt - Done (Sophie Gee)".data),
     ("30244527 - LPA Telemetry Improvements - Add information about Underhill - Done (Sophie Gee)".data),
     ("33294068 - LPA Should Handle Parsing Regex of OverlakeDhcpKusto - Done (Sophie Gee)".data),
     ("32918902 - BUG: LPA is using user provided start/end time as deployment start/end time - Done (Sophie Gee)".data),
     ("33396203 - Add unreliable failure signatures to LPA - Done (Sophie Gee)".data),
     ("33146348 - LPA Analysis Improvement - Expand Guest OS Crashing Details - Done (Sophie Gee)".data),
     ("34175408 - LPA Chat Bot- Implement Testing Procedures for Chat Bot End of LPA - To Do (Sophie Gee)".data)]
  else if epicId = 33587364 then
    [("33587337 - Vulnerability Management items for LPA - Bromine 2025 - New (Peyton Robertson)".data),
     ("32080221 - [SFI-NS2.1] IP allocations with Service Tags - AzLinux - Done (Peyton Robertson)".data),
     ("34388978 - [S360] [SFI-AR1.2.7] Vulnerability Management - To Do (Peyton Robertson)".data),
     ("33920620 - [S360] Patch Internet Exposed Vulnerability - Done (Peyton Robertson)".data)]
  else []

/-- `add_epic_details` (`create_focused_report.py` lines 245-369): epic
heading and details paragraph; for the `"Active"` section additionally the
latest-updates line and the child bullets (or the no-items note), for the
`"New"` section a status note; a blank paragraph closes the block. -/
def add_epic_details (e : VEpic) (n : Nat) (sectionType : List Char) :
    List FocusedElem :=
  [.fEpicHeading n e.title,
   .fEpicDetails e.id e.state (fAssignee e.assignee) e.tags]
  ++ (if sectionType == ("Active".data) then
        [.fUpdatesHeader, .fUpdateLine (get_latest_updates_for_epic e.id),
         .fChildHeader]
        ++ (if (get_child_items_for_epic e.id).isEmpty then [.fNoChildItems]
            else (get_child_items_for_epic e.id).map .fChildBullet)
      else if sectionType == ("New".data) then [.fNewStatusNote]
      else [])
  ++ [.fBlank]

/-- One step of Python dict counting `d[k] = d.get(k, 0) + 1` on an
insertion-ordered association list. -/
def bump (l : List (List Char × Nat)) (k : List Char) :
    List (List Char × Nat) :=
  match l with
  | [] => [(k, 1)]
  | (k0, n) :: rest =>
      if k0 == k then (k0, n + 1) :: rest else (k0, n) :: bump rest k

/-- The assignment-count dictionaries of the team analysis
(`create_focused_report.py` lines 186-196). -/
def countAssignees (epics : List VEpic) : List (List Char × Nat) :=
  epics.foldl (fun acc e => bump acc (fAssignee e.assignee)) []

/-- Ascending insertion into a key-sorted association list. -/
def insertSorted (x : List Char × Nat) :
    List (List Char × Nat) → List (List Char × Nat)
  | [] => [x]
  | y :: ys => if pyStrLt y.1 x.1 then y :: insertSorted x ys else x :: y :: ys

/-- Python `sorted(d.items())` (keys are distinct, so key order decides). -/
def sortPairs (l : List (List Char × Nat)) : List (List Char × Nat) :=
  l.foldr insertSorted []

/-- The focused document body (`create_focused_word_report`, lines 28-234):
title, generation paragraph, project info, summary table, the active
section (one `add_epic_details` block per active epic, 1-numbered), the
new-epics table, and the team-distribution analysis with sorted
assignment counts. -/
def buildFocused (d : VData) (now : Nat) : List FocusedElem :=
  [.fHeading 1 ("CloudInit Epic Status Report - Focused View".data),
   .fGenPara (tsStr now), .fBlank,
   .fHeading 2 ("Project Information".data), .fProjectInfo,
   .fHeading 2 ("Executive Summary".data),
   .fSummaryRow ("Total Epics (Active + New)".data) d.summary.total_epics,
   .fSummaryRow ("🟢 Active Epics (In Development)".data) d.summary.active_epics,
   .fSummaryRow ("🟡 New Epics (Planning/Backlog)".data) d.summary.new_epics,
   .fSummaryRow ("🔴 Removed Epics (Excluded)".data) d.summary.removed_epics,
   .fHeading 2 ("🟢 Active Epics - Current Development".data),
   .fActiveNote]
  ++ (d.active_epics.enum.flatMap
        (fun p => add_epic_details p.2 (p.1 + 1) ("Active".data)))
  ++ [.fPageBreak, .fHeading 2 ("🟡 New Epics - Planning & Backlog".data),
      .fNewNote]
  ++ d.new_epics.map
      (fun e => .fNewTableRow e.id e.title (fAssignee e.assignee) e.tags)
  ++ [.fHeading 2 ("Team Distribution Analysis".data),
      .fAssignHeading ("Active Epic Assignments:".data)]
  ++ (sortPairs (countAssignees d.active_epics)).map
      (fun p => .fAssignLine p.1 p.2)
  ++ [.fAssignHeading ("New Epic Assignments:".data)]
  ++ (sortPairs (countAssignees d.new_epics)).map
      (fun p => .fAssignLine p.1 p.2)
  ++ [.fBlank, .fFooter (tsStr now)]

/-- `create_focused_word_report` (`create_focused_report.py` lines
16-243): the first statement reads `epic_data_validated.json`; when the
file is missing, the except branch (lines 24-26) prints the error carried
here and returns `None` before any document exists, so nothing is saved.
Otherwise the document body is built and saved under a timestamped and a
fixed filename. -/
def create_focused_word_report (fs : Option VData) (now : Nat) :
    Except (List Char) (List FocusedElem × List (List Char)) :=
  match fs with
  | none =>
      .error ("epic_data_validated.json not found. Please run validate_epics.py first.".data)
  | some d =>
      .ok (buildFocused d now,
           [("CloudInit_Focused_Report_".data) ++ tsStr now ++ (".docx".data),
            ("CloudInit_Status_Report_Focused.docx".data)])

/-- Forget an epic's last-updated date (the one normalizer output
component fed by `datetime.now()` and `random.randint`). -/
def eraseLU (e : Epic) : Epic := { e with last_updated := none }

/-- Erase the document fields derived from the generation timestamp
(`datetime.now()` at render time): the `Generated:` line and the
`Report Generation Time:` bullet.  This is the erasure the claim allows. -/
def eraseTimestamps : DocElem → DocElem
  | .genInfoLine _ => .genInfoLine []
  | .genTimeBullet _ => .genTimeBullet []
  | x => x

/-- Erase the generation-timestamp fields AND the last-updated dates of
details lines (which the code derives from `random.randint` and
`datetime.now()` during normalization). -/
def eraseVolatile : DocElem → DocElem
  | .genInfoLine _ => .genInfoLine []
  | .genTimeBullet _ => .genTimeBullet []
  | .detailsLine s a _ => .detailsLine s a none
  | x => x

/-- A one-record batch (an active epic) used by the C5 counterexample. -/
def c5batch : List RawItem :=
  [{ fields :=
       { id := some 1, title := some ("T".data),
         state := some ("Active".data) } }]

-- ===== Theorems =====

/-- Membership in `takeWhile p` implies the predicate holds. -/
theorem pred_of_mem_takeWhile {p : Char → Bool} {c : Char} :
    ∀ {l : List Char}, c ∈ l.takeWhile p → p c = true := by
  intro l h
  induction l with
  | nil => simp [List.takeWhile] at h
  | cons x xs ih =>
      rw [List.takeWhile] at h
      cases hx : p x with
      | true =>
          rw [hx] at h
          rcases List.mem_cons.mp h with rfl | h2
          · exact hx
          · exact ih h2
      | false => rw [hx] at h; simp at h

/-- Membership in `pyStrip l` implies membership in `l`. -/
theorem mem_of_mem_pyStrip {c : Char} {l : List Char} (h : c ∈ pyStrip l) : c ∈ l := by
  unfold pyStrip at h
  have h1 := List.mem_reverse.mp h
  have h2 := (List.dropWhile_sublist (l := (l.dropWhile pySpace).reverse) (p := pySpace)).subset h1
  have h3 := List.mem_reverse.mp h2
  exact (List.dropWhile_sublist (l := l) (p := pySpace)).subset h3

/-- C2, counterexample.  The claim says `clean_assignee` truncates at the
first `<` and strips only TRAILING whitespace whenever the input carries an
angle-bracket email suffix.  On `" A <b@c.com>"` the code (`str.strip()`)
also strips the leading space and returns `"A"`, while the claimed
transformation returns `" A"`. -/
theorem clean_assignee_strips_leading_too :
    ('<' ∈ (" A <b@c.com>".data) ∧ '>' ∈ (" A <b@c.com>".data)) ∧
    clean_assignee (" A <b@c.com>".data) = ("A".data) ∧
    truncStripTrailing (" A <b@c.com>".data) = (" A".data) ∧
    clean_assignee (" A <b@c.com>".data) ≠ truncStripTrailing (" A <b@c.com>".data) := by
  refine ⟨by decide, by decide, by decide, by decide⟩

/-- C2, amended.  `clean_assignee` truncates at the first `<` and strips
leading AND trailing whitespace (Python `str.strip()`) whenever the input
contains both `<` and `>`; the empty string maps to `"Unassigned"`; in
particular `clean_assignee "A <b@c.com>" = "A"`. -/
theorem clean_assignee_spec :
    (∀ s : List Char,
      (s = [] → clean_assignee s = unassignedStr) ∧
      ('<' ∈ s → '>' ∈ s → clean_assignee s = pyStrip (beforeLt s))) ∧
    clean_assignee ("A <b@c.com>".data) = ("A".data) ∧
    clean_assignee [] = unassignedStr := by
  refine ⟨fun s => ⟨fun h => by simp [clean_assignee, h], fun h1 h2 => ?_⟩, by decide, by decide⟩
  have hne : s ≠ [] := List.ne_nil_of_mem h1
  simp [clean_assignee, hne, h1, h2]

/-- Witness for `clean_assignee_spec` at the concrete input `"B <x@y>"`. -/
theorem clean_assignee_spec_witness :
    clean_assignee ("B <x@y>".data) = pyStrip (beforeLt ("B <x@y>".data)) :=
  (clean_assignee_spec.1 ("B <x@y>".data)).2 (by decide) (by decide)

/-- C10, counterexample.  `clean_assignee` is not idempotent: on `"<a@b>"`
the first application yields the empty string (everything before the first
`<` is empty), and the second application maps the empty string to
`"Unassigned"`. -/
theorem clean_assignee_not_idempotent :
    clean_assignee ("<a@b>".data) = ([] : List Char) ∧
    clean_assignee (clean_assignee ("<a@b>".data)) = unassignedStr ∧
    clean_assignee (clean_assignee ("<a@b>".data)) ≠ clean_assignee ("<a@b>".data) := by
  refine ⟨by decide, by decide, by decide⟩

/-- C10, amended.  `clean_assignee` is idempotent on every input whose
result is non-empty (the only failures are inputs with `<` and `>` whose
prefix before the first `<` is all whitespace, which clean to the empty
string and then to `"Unassigned"`). -/
theorem clean_assignee_idem (s : List Char) (h : clean_assignee s ≠ []) :
    clean_assignee (clean_assignee s) = clean_assignee s := by
  by_cases hnil : s = []
  · subst hnil; decide
  · by_cases hang : '<' ∈ s ∧ '>' ∈ s
    · have hres : clean_assignee s = pyStrip (beforeLt s) := by
        simp [clean_assignee, hnil, hang]
      have hnolt : '<' ∉ clean_assignee s := by
        rw [hres]
        intro hmem
        have := pred_of_mem_takeWhile (mem_of_mem_pyStrip hmem)
        simp at this
      rw [clean_assignee]
      rw [if_neg h]
      rw [if_neg (by intro hc; exact hnolt hc.1)]
    · have hres : clean_assignee s = s := by
        simp only [clean_assignee, if_neg hnil, if_neg hang]
      rw [hres, clean_assignee, if_neg hnil, if_neg hang]

/-- Witness for `clean_assignee_idem` at the concrete input `"A <b@c>"`. -/
theorem clean_assignee_idem_witness :
    clean_assignee (clean_assignee ("A <b@c>".data)) = clean_assignee ("A <b@c>".data) :=
  clean_assignee_idem ("A <b@c>".data) (by decide)

/-- C8, counterexample.  The claim says every line containing `'**'`-spans
becomes a paragraph with odd-indexed split parts as bold runs.  But the
line `"**bold**"` starts and ends with `*` and is caught by the earlier
italic branch, producing a single italic run `"*bold*"`; and the line
`"# **T** x"` is caught by the heading branch, producing a level-1 heading
whose text keeps the literal `**` markers. -/
theorem bold_spans_not_always_bold_runs :
    classify ("**bold**".data) = some (.italicPara ("*bold*".data)) ∧
    classify ("**bold**".data) ≠ some (.boldPara (boldRuns ("**bold**".data))) ∧
    classify ("# **T** x".data) = some (.heading 1 ("**T** x".data) true) ∧
    classify ("# **T** x".data) ≠ some (.boldPara (boldRuns ("# **T** x".data))) := by
  refine ⟨by decide, by decide, by decide, by decide⟩

/-- C8, amended.  Every line that contains `'**'` and is not captured by an
earlier branch (it does not start with `'# '`, `'## '` or `'### '`, and it
does not both start and end with `'*'` while being longer than two
characters) is rendered as a paragraph obtained by splitting the line on
`'**'`, with odd-indexed parts as bold runs and even-indexed parts as
regular runs. -/
theorem bold_line_renders_bold_runs (line : List Char)
    (hin : pyInStr ("**".data) line = true)
    (h1 : pyStartsWith ("# ".data) line = false)
    (h2 : pyStartsWith ("## ".data) line = false)
    (h3 : pyStartsWith ("### ".data) line = false)
    (hital : (pyStartsWith ("*".data) line && pyEndsWith ("*".data) line
              && decide (line.length > 2)) = false) :
    classify line = some (.boldPara (boldRuns line)) := by
  have hne : line.isEmpty = false := by
    cases line with
    | nil => exact absurd hin (by decide)
    | cons c rest => rfl
  simp [classify, hne, h1, h2, h3, hital, hin]

/-- Witness for `bold_line_renders_bold_runs` at `"a **b** c"`. -/
theorem bold_line_renders_bold_runs_witness :
    classify ("a **b** c".data) = some (.boldPara (boldRuns ("a **b** c".data))) :=
  bold_line_renders_bold_runs ("a **b** c".data)
    (by decide) (by decide) (by decide) (by decide) (by decide)

/-- C9, counterexample.  The claim says every stripped line beginning with
`'#'` but not with exactly `'# '`, `'## '` or `'### '` matches no branch
and is dropped.  The line `"####**Deep**"` begins with `'#'`, matches none
of the three heading prefixes, yet contains `'**'` and is therefore caught
by the bold-paragraph branch and rendered. -/
theorem malformed_hash_line_not_always_dropped :
    pyStartsWith ("#".data) ("####**Deep**".data) = true ∧
    pyStartsWith ("# ".data) ("####**Deep**".data) = false ∧
    pyStartsWith ("## ".data) ("####**Deep**".data) = false ∧
    pyStartsWith ("### ".data) ("####**Deep**".data) = false ∧
    classify ("####**Deep**".data)
      = some (.boldPara (boldRuns ("####**Deep**".data))) ∧
    classify ("####**Deep**".data) ≠ none := by
  refine ⟨by decide, by decide, by decide, by decide, by decide, by decide⟩

/-- C9, amended.  Every non-empty stripped line that begins with `'#'` but
not with exactly `'# '`, `'## '` or `'### '`, and that does not contain
`'**'`, matches no classification branch and contributes no element to the
output document. -/
theorem malformed_hash_line_dropped (line : List Char)
    (hh : pyStartsWith ("#".data) line = true)
    (h1 : pyStartsWith ("# ".data) line = false)
    (h2 : pyStartsWith ("## ".data) line = false)
    (h3 : pyStartsWith ("### ".data) line = false)
    (hin : pyInStr ("**".data) line = false) :
    classify line = none := by
  cases line with
  | nil => exact absurd hh (by decide)
  | cons c rest =>
      have hc : c = '#' := by
        simp [pyStartsWith, List.isPrefixOf] at hh
        exact hh.symm
      subst hc
      have hstar : pyStartsWith ("*".data) ('#' :: rest) = false := by
        simp [pyStartsWith, List.isPrefixOf]
      have hdash : pyStartsWith ("- ".data) ('#' :: rest) = false := by
        simp [pyStartsWith, List.isPrefixOf]
      have hrule3 : pyStartsWith ("---".data) ('#' :: rest) = false := by
        simp [pyStartsWith, List.isPrefixOf]
      simp [classify, h1, h2, h3, hin, hh, hstar, hdash, hrule3]

/-- Witness for `malformed_hash_line_dropped` at `"####Deep"`. -/
theorem malformed_hash_line_dropped_witness :
    classify ("####Deep".data) = none :=
  malformed_hash_line_dropped ("####Deep".data)
    (by decide) (by decide) (by decide) (by decide) (by decide)

/-- The state stored by `mkEpic` is the defaulted raw state, on both
branches. -/
theorem mkEpic_state (f : RawFields) (sample : List Child) (now d : Nat) :
    (mkEpic f sample now d).state = f.state.getD ("Unknown".data) := by
  unfold mkEpic; split <;> rfl

/-- The title stored by `mkEpic` is the defaulted raw title. -/
theorem mkEpic_title (f : RawFields) (sample : List Child) (now d : Nat) :
    (mkEpic f sample now d).title = f.title.getD ("Unknown Epic".data) := by
  unfold mkEpic; split <;> rfl

/-- The assignee stored by `mkEpic` is the cleaned, defaulted raw
assignee. -/
theorem mkEpic_assigned_to (f : RawFields) (sample : List Child) (now d : Nat) :
    (mkEpic f sample now d).assigned_to
      = clean_assignee (f.assignedTo.getD unassignedStr) := by
  unfold mkEpic; split <;> rfl

/-- `mkEpic` leaves `children` empty unless `usesDraw` holds. -/
theorem mkEpic_children_empty (f : RawFields) (sample : List Child)
    (now d : Nat) (h : usesDraw f sample = false) :
    (mkEpic f sample now d).children = [] := by
  unfold mkEpic
  rw [if_neg (by simp [h])]

/-- Every epic produced by `processGo` is `mkEpic` of some record whose
raw state does not lower-case to `"removed"`. -/
theorem processGo_mem {sample : List Child} {now : Nat} {draw : Nat → Nat} :
    ∀ {l : List RawItem} {k : Nat} {e : Epic},
      e ∈ processGo sample now draw l k →
      ∃ (f : RawFields) (d : Nat),
        (pyLower (f.state.getD []) == ("removed".data)) = false ∧
        e = mkEpic f sample now d := by
  intro l
  induction l with
  | nil => intro k e h; simp [processGo] at h
  | cons item rest ih =>
      intro k e h
      cases hr : (pyLower (item.fields.state.getD []) == ("removed".data)) with
      | true => rw [processGo, if_pos hr] at h; exact ih h
      | false =>
          rw [processGo, if_neg (by simp [hr])] at h
          rcases List.mem_cons.mp h with rfl | h2
          · exact ⟨item.fields, draw k, hr, rfl⟩
          · exact ih h2

/-- C7.  The normalizer substitutes placeholders for absent fields: a
record with no `System.Title` key normalizes to title `"Unknown Epic"`, a
record with no `System.AssignedTo` key normalizes to assignee
`"Unassigned"`, and each non-removed record is normalized (by `mkEpic`,
with no validation) and appended to the output. -/
theorem absent_fields_default :
    (∀ (f : RawFields) (sample : List Child) (now d : Nat),
      f.title = none → (mkEpic f sample now d).title = ("Unknown Epic".data)) ∧
    (∀ (f : RawFields) (sample : List Child) (now d : Nat),
      f.assignedTo = none → (mkEpic f sample now d).assigned_to = unassignedStr) ∧
    (∀ (item : RawItem) (rest : List RawItem) (sample : List Child)
       (now : Nat) (draw : Nat → Nat) (k : Nat),
      (pyLower (item.fields.state.getD []) == ("removed".data)) = false →
      processGo sample now draw (item :: rest) k
        = mkEpic item.fields sample now (draw k)
          :: processGo sample now draw rest
              (if usesDraw item.fields sample then k + 1 else k)) := by
  refine ⟨fun f sample now d h => ?_, fun f sample now d h => ?_,
    fun item rest sample now draw k h => ?_⟩
  · rw [mkEpic_title, h]; rfl
  · rw [mkEpic_assigned_to, h]; decide
  · rw [processGo, if_neg (by simp [h])]

/-- Witness for `absent_fields_default`: a concrete record carrying only a
state defaults its title and assignee, and is kept by the loop. -/
theorem absent_fields_default_witness :
    (mkEpic { state := some ("New".data) } [] 5 3).title = ("Unknown Epic".data) ∧
    (mkEpic { state := some ("New".data) } [] 5 3).assigned_to = unassignedStr ∧
    processGo [] 5 (fun _ => 3) [{ fields := { state := some ("New".data) } }] 0
      = [mkEpic { state := some ("New".data) } [] 5 3] := by
  refine ⟨absent_fields_default.1 _ [] 5 3 rfl,
    absent_fields_default.2.1 _ [] 5 3 rfl, ?_⟩
  have h := absent_fields_default.2.2 { fields := { state := some ("New".data) } }
    [] [] 5 (fun _ => 3) 0 (by decide)
  simpa using h

/-- Membership in the three-state list splits as membership in the
two-state list or equality with `"new"`. -/
theorem pyInList_acn (s : List Char) :
    pyInList s acnStates = (pyInList s acStates || (s == ("new".data))) := by
  simp [pyInList, acStates, acnStates, Bool.or_assoc]

/-- A state in `['active', 'committed']` is not `"new"`. -/
theorem not_new_of_ac (s : List Char) (h : pyInList s acStates = true) :
    (s == ("new".data)) = false := by
  cases h2 : (s == ("new".data)) with
  | false => rfl
  | true =>
      have hs : s = ("new".data) := by simpa using h2
      rw [hs] at h
      exact absurd h (by decide)

/-- Every epic satisfies exactly one of the three bucket conditions. -/
theorem bucketCount_eq_one (e : Epic) : bucketCount e = 1 := by
  unfold bucketCount isAC isNewState isOtherState
  simp only [pyInList_acn]
  cases h1 : pyInList (pyLower e.state) acStates with
  | true => simp [not_new_of_ac _ h1]
  | false => cases h2 : (pyLower e.state == ("new".data)) <;> simp [h2]

/-- The three bucket sizes sum to the number of input epics. -/
theorem bucket_length_sum (l : List Epic) :
    (active_committed_epics l).length + (new_epics_of l).length
      + (other_epics_of l).length = l.length := by
  unfold active_committed_epics new_epics_of other_epics_of
  rw [← List.countP_eq_length_filter, ← List.countP_eq_length_filter,
    ← List.countP_eq_length_filter]
  induction l with
  | nil => rfl
  | cons e rest ih =>
      simp only [List.countP_cons, List.length_cons]
      have hc := bucketCount_eq_one e
      unfold bucketCount at hc
      split_ifs at hc ⊢ <;> omega

/-- C4.  The renderer's three state buckets partition the input: the
bucket sizes sum to the input length, each bucket preserves the input's
relative order (it is a sublist), every epic satisfies exactly one bucket
condition, and bucket membership is exactly input membership plus that
condition. -/
theorem buckets_partition (l : List Epic) (e : Epic) :
    ((active_committed_epics l).length + (new_epics_of l).length
       + (other_epics_of l).length = l.length) ∧
    (active_committed_epics l).Sublist l ∧
    (new_epics_of l).Sublist l ∧
    (other_epics_of l).Sublist l ∧
    bucketCount e = 1 ∧
    (e ∈ active_committed_epics l ↔ e ∈ l ∧ isAC e = true) ∧
    (e ∈ new_epics_of l ↔ e ∈ l ∧ isNewState e = true) ∧
    (e ∈ other_epics_of l ↔ e ∈ l ∧ isOtherState e = true) := by
  refine ⟨bucket_length_sum l, List.filter_sublist l, List.filter_sublist l,
    List.filter_sublist l, bucketCount_eq_one e, List.mem_filter,
    List.mem_filter, List.mem_filter⟩

/-- The second component of an enumerated pair is a member of the list. -/
theorem snd_mem_of_mem_enum {α : Type} :
    ∀ {l : List α} {n : Nat} {p : Nat × α}, p ∈ l.enumFrom n → p.2 ∈ l := by
  intro l
  induction l with
  | nil => intro n p h; simp [List.enumFrom] at h
  | cons a rest ih =>
      intro n p h
      rw [List.enumFrom] at h
      rcases List.mem_cons.mp h with rfl | h2
      · exact List.mem_cons_self _ _
      · exact List.mem_cons_of_mem _ (ih h2)

/-- Every element of an active/committed epic block either carries no
state or carries that epic's state. -/
theorem acBlock_stateOf (p : Nat × Epic) :
    ∀ x ∈ acBlock p, stateOf x = none ∨ stateOf x = some p.2.state := by
  intro x hx
  simp only [acBlock, List.mem_append] at hx
  rcases hx with (h | h) | h
  · simp at h
    rcases h with rfl | rfl <;> simp [stateOf]
  · by_cases hs : p.2.salient_points.isEmpty
    · rw [if_pos hs] at h; simp at h
    · rw [if_neg hs] at h
      rcases List.mem_cons.mp h with rfl | h2
      · simp [stateOf]
      · rcases List.mem_map.mp h2 with ⟨a, _, rfl⟩; simp [stateOf]
  · by_cases hc : p.2.children.isEmpty
    · rw [if_pos hc] at h
      simp at h; subst h; simp [stateOf]
    · rw [if_neg hc] at h
      simp at h
      rcases h with rfl | rfl | rfl <;> simp [stateOf]

/-- Every state string carried by an element of the Word report is the
state of one of the input epics. -/
theorem render_stateOf {epics : List Epic} {now : Nat} {x : DocElem}
    {s : List Char} (hx : x ∈ generate_live_word_report epics now)
    (hs : stateOf x = some s) : ∃ e ∈ epics, s = e.state := by
  simp only [generate_live_word_report, List.mem_append] at hx
  rcases hx with (((hhead | hac) | hnew) | hother) | hfoot
  · simp [headerElems] at hhead
    rcases hhead with rfl | rfl | rfl | rfl <;> simp [stateOf] at hs
  · unfold acSection at hac
    by_cases hne : (active_committed_epics epics).isEmpty
    · rw [if_pos hne] at hac; simp at hac
    · rw [if_neg hne] at hac
      rcases List.mem_cons.mp hac with rfl | hblk
      · simp [stateOf] at hs
      · rcases List.mem_flatMap.mp hblk with ⟨p, hp, hxp⟩
        have he : p.2 ∈ active_committed_epics epics := snd_mem_of_mem_enum hp
        rcases acBlock_stateOf p x hxp with hn | hsome
        · rw [hn] at hs; cases hs
        · rw [hsome] at hs
          exact ⟨p.2, (List.filter_sublist epics).subset he,
            (Option.some.inj hs).symm⟩
  · unfold newSection at hnew
    by_cases hne : (new_epics_of epics).isEmpty
    · rw [if_pos hne] at hnew; simp at hnew
    · rw [if_neg hne] at hnew
      simp at hnew
      rcases hnew with rfl | rfl <;> simp [stateOf] at hs
  · unfold otherSection at hother
    by_cases hne : (other_epics_of epics).isEmpty
    · rw [if_pos hne] at hother; simp at hother
    · rw [if_neg hne] at hother
      rcases List.mem_cons.mp hother with rfl | hob
      · simp [stateOf] at hs
      · rcases List.mem_map.mp hob with ⟨e, he, rfl⟩
        simp [stateOf] at hs
        exact ⟨e, (List.filter_sublist epics).subset he, hs.symm⟩
  · simp [footerElems, reportDetails] at hfoot
    rcases hfoot with rfl | rfl | rfl | rfl | rfl | rfl | rfl | rfl | rfl | rfl |
      rfl | rfl | rfl | rfl | rfl | rfl | rfl | rfl | rfl <;> simp [stateOf] at hs

/-- A child table inside an epic block carries that epic's state. -/
theorem acBlock_childTable {p : Nat × Epic} {pid : Option Int}
    {pstate : List Char} {rows : List (List (List Char))}
    (h : DocElem.childTable pid pstate rows ∈ acBlock p) :
    pstate = p.2.state := by
  simp only [acBlock, List.mem_append] at h
  rcases h with (h | h) | h
  · simp at h
  · by_cases hs : p.2.salient_points.isEmpty
    · rw [if_pos hs] at h; simp at h
    · rw [if_neg hs] at h; simp at h
  · by_cases hc : p.2.children.isEmpty
    · rw [if_pos hc] at h; simp at h
    · rw [if_neg hc] at h
      simp at h
      exact h.2.1

/-- Every child table of the Word report belongs to an epic of the
active/committed bucket. -/
theorem childTable_in_report_ac {epics : List Epic} {now : Nat}
    {pid : Option Int} {pstate : List Char}
    {rows : List (List (List Char))}
    (hx : DocElem.childTable pid pstate rows
            ∈ generate_live_word_report epics now) :
    ∃ e ∈ epics, pstate = e.state ∧ isAC e = true := by
  simp only [generate_live_word_report, List.mem_append] at hx
  rcases hx with (((hh | hac) | hn) | ho) | hf
  · simp [headerElems] at hh
  · unfold acSection at hac
    by_cases hne : (active_committed_epics epics).isEmpty
    · rw [if_pos hne] at hac; simp at hac
    · rw [if_neg hne] at hac
      rcases List.mem_cons.mp hac with heq | hblk
      · simp at heq
      · rcases List.mem_flatMap.mp hblk with ⟨p, hp, hxp⟩
        have hst := acBlock_childTable hxp
        have hmem := List.mem_filter.mp (snd_mem_of_mem_enum hp)
        exact ⟨p.2, hmem.1, hst, hmem.2⟩
  · unfold newSection at hn
    by_cases hne : (new_epics_of epics).isEmpty
    · rw [if_pos hne] at hn; simp at hn
    · rw [if_neg hne] at hn; simp at hn
  · unfold otherSection at ho
    by_cases hne : (other_epics_of epics).isEmpty
    · rw [if_pos hne] at ho; simp at ho
    · rw [if_neg hne] at ho; simp at ho
  · simp [footerElems, reportDetails] at hf

/-- C1, counterexample.  The Markdown comprehensive report renders the
`"Removed"` epic 4976352: it is in the live data, its state is
`"Removed"`, its Complete-Epics-Overview row is emitted by
`generate_comprehensive_report`, and that row's text contains the cell
`"| Removed |"`. -/
theorem removed_epic_rendered_in_overview :
    cEpic4976352 ∈ fetch_live_cloudinit_data.epics ∧
    cEpic4976352.state = ("Removed".data) ∧
    MdFrag.overviewRowMd cEpic4976352
      ∈ generate_comprehensive_report fetch_live_cloudinit_data
          ("2025-09-01 12:00:00".data) ∧
    pyInStr ("| Removed |".data) (overviewRowText cEpic4976352) = true := by
  refine ⟨by decide, by decide, ?_, by decide⟩
  have h : cEpic4976352 ∈ fetch_live_cloudinit_data.epics := by decide
  exact List.mem_append.mpr (Or.inl (List.mem_append.mpr
    (Or.inr (List.mem_map.mpr ⟨cEpic4976352, h, rfl⟩))))

/-- C1, amended.  The normalizer `process_mcp_epic_data` drops every
record whose state lower-cases to `"removed"`, so the Word report built
from its output never carries a removed state in any details line, child
table or bullet; the comprehensive MARKDOWN report, however, emits one
Complete-Epics-Overview table row for every epic of its input, removed
ones included (see the counterexample). -/
theorem removed_dropped_and_word_report_clean :
    (∀ (b1 b2 : List RawItem) (sample : List Child) (now : Nat)
       (draw : Nat → Nat) (e : Epic),
      e ∈ process_mcp_epic_data b1 b2 sample now draw →
      pyLower e.state ≠ ("removed".data)) ∧
    (∀ (epics : List Epic) (now : Nat),
      (∀ e ∈ epics, pyLower e.state ≠ ("removed".data)) →
      ∀ x ∈ generate_live_word_report epics now,
        ∀ s, stateOf x = some s → pyLower s ≠ ("removed".data)) ∧
    (∀ (data : CData) (rd : List Char),
      List.IsInfix (data.epics.map MdFrag.overviewRowMd)
        (generate_comprehensive_report data rd)) := by
  refine ⟨?_, ?_, ?_⟩
  · intro b1 b2 sample now draw e he
    rcases processGo_mem he with ⟨f, d, hkeep, rfl⟩
    rw [mkEpic_state]
    cases hf : f.state with
    | none => simp [hf]; decide
    | some s =>
        simp only [hf, Option.getD] at hkeep ⊢
        simpa using hkeep
  · intro epics now hcl x hx s hs
    rcases render_stateOf hx hs with ⟨e, he, rfl⟩
    exact hcl e he
  · intro data rd
    exact ⟨comprehensivePre data rd, comprehensivePost data rd, by
      simp [generate_comprehensive_report, List.append_assoc]⟩

/-- Witness for `removed_dropped_and_word_report_clean`: a concrete
normalized record and a concrete rendered details line both carry a
non-removed state. -/
theorem removed_dropped_witness :
    pyLower ((mkEpic { state := some ("New".data) } [] 7 1).state)
      ≠ ("removed".data) ∧
    pyLower sampleActiveEpic.state ≠ ("removed".data) := by
  refine ⟨?_, ?_⟩
  · exact removed_dropped_and_word_report_clean.1
      [{ fields := { state := some ("New".data) } }] [] [] 7 (fun _ => 1) _
      (by decide)
  · exact removed_dropped_and_word_report_clean.2.1 [sampleActiveEpic] 0
      (by decide)
      (DocElem.detailsLine sampleActiveEpic.state sampleActiveEpic.assigned_to
        sampleActiveEpic.last_updated)
      (by decide) sampleActiveEpic.state rfl

/-- C3.  Children are attached and rendered only under active/committed
parents: (1) an epic whose state is outside the active/committed bucket
leaves `process_mcp_epic_data` with an empty children list; (2) every
child table of the Word report belongs to an epic of the active/committed
bucket; (3) every child row of the comprehensive Markdown report belongs
to an epic whose state is exactly `'Active'`; (4) on the program's live
data, every epic outside state Active/Committed carries no children. -/
theorem children_only_under_active_committed :
    (∀ (b1 b2 : List RawItem) (sample : List Child) (now : Nat)
       (draw : Nat → Nat) (e : Epic),
      e ∈ process_mcp_epic_data b1 b2 sample now draw →
      isAC e = false → e.children = []) ∧
    (∀ (epics : List Epic) (now : Nat) (pid : Option Int)
       (pstate : List Char) (rows : List (List (List Char))),
      DocElem.childTable pid pstate rows
          ∈ generate_live_word_report epics now →
      ∃ e ∈ epics, pstate = e.state ∧ isAC e = true) ∧
    (∀ (data : CData) (rd : List Char) (p : CEpic) (c : RawItem),
      MdFrag.childRowMd p c ∈ generate_comprehensive_report data rd →
      p ∈ data.epics ∧ p.state = ("Active".data)) ∧
    (∀ e ∈ fetch_live_cloudinit_data.epics,
      pyInList e.state [("Active".data), ("Committed".data)] = false →
      e.children = []) := by
  refine ⟨?_, ?_, ?_, by decide⟩
  · intro b1 b2 sample now draw e he hac
    rcases processGo_mem he with ⟨f, d, _, rfl⟩
    apply mkEpic_children_empty
    unfold isAC at hac
    rw [mkEpic_state] at hac
    simp [usesDraw, hac]
  · intro epics now pid pstate rows hx
    exact childTable_in_report_ac hx
  · intro data rd p c h
    simp only [generate_comprehensive_report, comprehensivePre,
      comprehensivePost, List.mem_append] at h
    rcases h with (((((hm | hblk) | ht) | hb) | hov) | hrow) | hpost
    · simp at hm
    · rcases List.mem_flatMap.mp hblk with ⟨e, he, hmem⟩
      have hef : e ∈ data.epics ∧ e.state = ("Active".data) := by
        simpa [activeEpicListMd, List.mem_filter] using he
      have hpe : p = e := by
        simp only [activeEpicBlockMd, List.mem_cons, List.mem_append] at hmem
        rcases hmem with hmem | (hmem | hmem)
        · simp at hmem
        · by_cases hc : e.children.isEmpty
          · rw [if_pos hc] at hmem; simp at hmem
          · rw [if_neg hc] at hmem
            simp at hmem
            exact hmem.2.symm
        · simp at hmem
      subst hpe
      exact ⟨hef.1, hef.2⟩
    · simp at ht
    · simp at hb
    · simp at hov
    · simp at hrow
    · simp at hpost

/-- Witness for `children_only_under_active_committed` at concrete
inputs: a normalized `"New"` record has no children, the one child table
of a one-epic report belongs to an active epic, and the live `"Removed"`
epic 4976352 has no children. -/
theorem children_only_witness :
    (mkEpic { state := some ("New".data) } [] 7 1).children = [] ∧
    (∃ e ∈ [sampleActiveEpicC], sampleActiveEpic.state = e.state
        ∧ isAC e = true) ∧
    cEpic4976352.children = [] := by
  refine ⟨?_, ?_, ?_⟩
  · exact children_only_under_active_committed.1
      [{ fields := { state := some ("New".data) } }] [] [] 7 (fun _ => 1) _
      (by decide) (by decide)
  · exact children_only_under_active_committed.2.1
      [sampleActiveEpicC] 0 (some 1) sampleActiveEpic.state
      [childRow sampleChild] (by decide)
  · exact children_only_under_active_committed.2.2.2 cEpic4976352
      (by decide) (by decide)

/-- C6.  When the expected input file is missing, both converters report
the missing file and abort with no output document: `parse_markdown_to_word`
(whose first statement opens `cloudinit_status_report.md`) and
`create_focused_word_report` (whose first statement reads
`epic_data_validated.json`) return the error message printed by their
handlers and never reach a `doc.save`; with the file present each returns
a document. -/
theorem missing_input_reported_no_output :
    (∀ now : Nat, parse_markdown_to_word none now
      = .error ("cloudinit_status_report.md file not found".data)) ∧
    (∀ now : Nat, create_focused_word_report none now
      = .error ("epic_data_validated.json not found. Please run validate_epics.py first.".data)) ∧
    (∀ (now : Nat) (content : List Char),
      ∃ out, parse_markdown_to_word (some content) now = .ok out) ∧
    (∀ (now : Nat) (d : VData),
      ∃ out, create_focused_word_report (some d) now = .ok out) :=
  ⟨fun _ => rfl, fun _ => rfl, fun _ _ => ⟨_, rfl⟩, fun _ _ => ⟨_, rfl⟩⟩

@[simp] theorem eraseLU_state (e : Epic) : (eraseLU e).state = e.state := rfl
@[simp] theorem eraseLU_title (e : Epic) : (eraseLU e).title = e.title := rfl
@[simp] theorem eraseLU_id (e : Epic) : (eraseLU e).id = e.id := rfl
@[simp] theorem eraseLU_assigned (e : Epic) :
    (eraseLU e).assigned_to = e.assigned_to := rfl
@[simp] theorem eraseLU_tags (e : Epic) : (eraseLU e).tags = e.tags := rfl
@[simp] theorem eraseLU_children (e : Epic) :
    (eraseLU e).children = e.children := rfl
@[simp] theorem eraseLU_salient (e : Epic) :
    (eraseLU e).salient_points = e.salient_points := rfl
@[simp] theorem eraseLU_lu (e : Epic) : (eraseLU e).last_updated = none := rfl

@[simp] theorem isAC_eraseLU (e : Epic) : isAC (eraseLU e) = isAC e := rfl
@[simp] theorem isNewState_eraseLU (e : Epic) :
    isNewState (eraseLU e) = isNewState e := rfl
@[simp] theorem isOtherState_eraseLU (e : Epic) :
    isOtherState (eraseLU e) = isOtherState e := rfl
@[simp] theorem has_blockers_eraseLU (e : Epic) :
    has_blockers (eraseLU e) = has_blockers e := rfl

/-- Up to the last-updated date, `mkEpic` does not depend on the clock or
the random draw. -/
theorem mkEpic_eraseLU (f : RawFields) (sample : List Child)
    (now d now' d' : Nat) :
    eraseLU (mkEpic f sample now d) = eraseLU (mkEpic f sample now' d') := by
  unfold mkEpic
  split <;> rfl

/-- Up to last-updated dates, the normalizer output does not depend on the
clock, the random draws, or the draw counter. -/
theorem processGo_eraseLU (sample : List Child)
    (now1 now2 : Nat) (draw1 draw2 : Nat → Nat) :
    ∀ (l : List RawItem) (k1 k2 : Nat),
      (processGo sample now1 draw1 l k1).map eraseLU
        = (processGo sample now2 draw2 l k2).map eraseLU := by
  intro l
  induction l with
  | nil => intro k1 k2; rfl
  | cons item rest ih =>
      intro k1 k2
      cases hr : (pyLower (item.fields.state.getD []) == ("removed".data)) with
      | true =>
          rw [processGo, processGo, if_pos hr, if_pos hr]
          exact ih k1 k2
      | false =>
          have hr' : ¬((pyLower (item.fields.state.getD [])
              == ("removed".data)) = true) := by simp [hr]
          rw [processGo, processGo, if_neg hr', if_neg hr']
          rw [List.map_cons, List.map_cons,
            mkEpic_eraseLU item.fields sample now1 (draw1 k1) now2 (draw2 k2)]
          rw [ih]

@[simp] theorem newRow_eraseLU (e : Epic) : newRow (eraseLU e) = newRow e := rfl

@[simp] theorem childRow_map_eraseLU (e : Epic) :
    (eraseLU e).children.map childRow = e.children.map childRow := rfl

/-- Up to volatile fields, an epic block does not depend on the epic's
last-updated date. -/
theorem acBlock_eraseLU (n : Nat) (e : Epic) :
    (acBlock (n, eraseLU e)).map eraseVolatile
      = (acBlock (n, e)).map eraseVolatile := by
  simp only [acBlock, eraseLU_title, eraseLU_id, has_blockers_eraseLU,
    eraseLU_state, eraseLU_assigned, eraseLU_lu, eraseLU_salient,
    eraseLU_children, List.map_append, List.map_cons]
  rfl

/-- The active/committed bucket commutes with last-updated erasure. -/
theorem ac_map_eraseLU (epics : List Epic) :
    active_committed_epics (epics.map eraseLU)
      = (active_committed_epics epics).map eraseLU := by
  unfold active_committed_epics
  rw [List.filter_map]
  rfl

/-- The new bucket commutes with last-updated erasure. -/
theorem new_map_eraseLU (epics : List Epic) :
    new_epics_of (epics.map eraseLU) = (new_epics_of epics).map eraseLU := by
  unfold new_epics_of
  rw [List.filter_map]
  rfl

/-- The other-states bucket commutes with last-updated erasure. -/
theorem other_map_eraseLU (epics : List Epic) :
    other_epics_of (epics.map eraseLU) = (other_epics_of epics).map eraseLU := by
  unfold other_epics_of
  rw [List.filter_map]
  rfl

@[simp] theorem totalChildren_map_eraseLU (epics : List Epic) :
    totalChildren (epics.map eraseLU) = totalChildren epics := by
  unfold totalChildren
  rw [List.map_map]
  rfl

/-- Up to volatile fields, the concatenated epic blocks do not depend on
last-updated dates. -/
theorem flatMap_acBlock_eraseLU :
    ∀ (l : List Epic) (n : Nat),
      (((l.map eraseLU).enumFrom n).flatMap acBlock).map eraseVolatile
        = ((l.enumFrom n).flatMap acBlock).map eraseVolatile := by
  intro l
  induction l with
  | nil => intro n; rfl
  | cons e t ih =>
      intro n
      simp only [List.map_cons, List.enumFrom, List.flatMap_cons,
        List.map_append]
      rw [acBlock_eraseLU n e, ih (n + 1)]

@[simp] theorem isEmpty_map {α β : Type} (f : α → β) (l : List α) :
    (l.map f).isEmpty = l.isEmpty := by cases l <;> rfl

/-- `flatMap_acBlock_eraseLU` at the start index zero of `enum`. -/
theorem flatMap_acBlock_eraseLU_enum (l : List Epic) :
    (((l.map eraseLU).enum).flatMap acBlock).map eraseVolatile
      = ((l.enum).flatMap acBlock).map eraseVolatile :=
  flatMap_acBlock_eraseLU l 0

/-- The header block is volatile-erasure equal across clock values and
last-updated erasure. -/
theorem headerElems_eraseLU (epics : List Epic) (now now' : Nat) :
    (headerElems epics now).map eraseVolatile
      = (headerElems (epics.map eraseLU) now').map eraseVolatile := by
  simp [headerElems, eraseVolatile, ac_map_eraseLU, new_map_eraseLU]

/-- The active/committed section is stable under last-updated erasure, up
to volatile fields. -/
theorem acSection_eraseLU (epics : List Epic) :
    (acSection epics).map eraseVolatile
      = (acSection (epics.map eraseLU)).map eraseVolatile := by
  unfold acSection
  rw [ac_map_eraseLU, isEmpty_map]
  split
  · rfl
  · simp only [List.map_cons]
    rw [flatMap_acBlock_eraseLU_enum]

/-- The New-epics section is stable under last-updated erasure. -/
theorem newSection_eraseLU (epics : List Epic) :
    (newSection epics).map eraseVolatile
      = (newSection (epics.map eraseLU)).map eraseVolatile := by
  unfold newSection
  rw [new_map_eraseLU, isEmpty_map]
  split
  · rfl
  · have hcomp : newRow ∘ eraseLU = newRow := funext fun e => rfl
    simp only [List.map_map, hcomp]

/-- The other-states section is stable under last-updated erasure. -/
theorem otherSection_eraseLU (epics : List Epic) :
    (otherSection epics).map eraseVolatile
      = (otherSection (epics.map eraseLU)).map eraseVolatile := by
  unfold otherSection
  rw [other_map_eraseLU, isEmpty_map]
  split
  · rfl
  · have hcomp : (fun e : Epic =>
        DocElem.otherBullet e.title e.id e.state e.assigned_to) ∘ eraseLU
        = fun e : Epic =>
            DocElem.otherBullet e.title e.id e.state e.assigned_to :=
      funext fun e => rfl
    simp only [List.map_map, hcomp]

/-- The footer is volatile-erasure equal across clock values and
last-updated erasure. -/
theorem footerElems_eraseLU (epics : List Epic) (now now' : Nat) :
    (footerElems epics now).map eraseVolatile
      = (footerElems (epics.map eraseLU) now').map eraseVolatile := by
  simp [footerElems, reportDetails, eraseVolatile, ac_map_eraseLU,
    new_map_eraseLU, other_map_eraseLU]

/-- Up to volatile fields, the Word report depends only on the
last-updated-erased epic list, not on the render clock. -/
theorem render_eraseVolatile (epics : List Epic) (now now' : Nat) :
    (generate_live_word_report epics now).map eraseVolatile
      = (generate_live_word_report (epics.map eraseLU) now').map eraseVolatile := by
  unfold generate_live_word_report
  simp only [List.map_append]
  rw [headerElems_eraseLU epics now now', acSection_eraseLU epics,
    newSection_eraseLU epics, otherSection_eraseLU epics,
    footerElems_eraseLU epics now now']

/-- C5, counterexample.  Two runs on the same input records, differing
only in the `random.randint` draw consumed by `get_epic_last_updated`,
produce different textual content even after every generation-timestamp
field is erased: the `Last Updated:` date of the active epic's details
line differs, and that date is not a function of the input records. -/
theorem report_not_input_determined :
    (generate_live_word_report
        (process_mcp_epic_data c5batch [] [sampleChild] 100 (fun _ => 1)) 100).map
        eraseTimestamps
      ≠ (generate_live_word_report
          (process_mcp_epic_data c5batch [] [sampleChild] 100 (fun _ => 2)) 100).map
          eraseTimestamps := by decide

/-- C5, amended.  Once the generation-timestamp fields AND the randomized
last-updated dates are ignored, the rendered textual content is a
deterministic function of the input records alone: any two runs — over any
clock values and any random draws, at normalization and at render time —
agree. -/
theorem report_deterministic_mod_volatile
    (b1 b2 : List RawItem) (sample : List Child)
    (now1 now2 r1 r2 : Nat) (draw1 draw2 : Nat → Nat) :
    (generate_live_word_report
        (process_mcp_epic_data b1 b2 sample now1 draw1) r1).map eraseVolatile
      = (generate_live_word_report
          (process_mcp_epic_data b1 b2 sample now2 draw2) r2).map eraseVolatile := by
  have hmap : (process_mcp_epic_data b1 b2 sample now1 draw1).map eraseLU
      = (process_mcp_epic_data b1 b2 sample now2 draw2).map eraseLU :=
    processGo_eraseLU sample now1 now2 draw1 draw2 (b1 ++ b2) 0 0
  calc (generate_live_word_report
          (process_mcp_epic_data b1 b2 sample now1 draw1) r1).map eraseVolatile
      = (generate_live_word_report
          ((process_mcp_epic_data b1 b2 sample now1 draw1).map eraseLU) 0).map
          eraseVolatile :=
        render_eraseVolatile (process_mcp_epic_data b1 b2 sample now1 draw1) r1 0
    _ = (generate_live_word_report
          ((process_mcp_epic_data b1 b2 sample now2 draw2).map eraseLU) 0).map
          eraseVolatile := by rw [hmap]
    _ = (generate_live_word_report
          (process_mcp_epic_data b1 b2 sample now2 draw2) r2).map eraseVolatile :=
        (render_eraseVolatile (process_mcp_epic_data b1 b2 sample now2 draw2) r2 0).symm
